import Mathlib

/-!
Verification of the pdf_render page-content rendering engine against its
natural-language specification.

The Rust sources are shallowly embedded: `f32` scalars are modelled as exact
rationals (`ℚ`), byte values as `Nat` (kept in 0..255 by the operations
themselves, with saturating arithmetic written out explicitly), fallible code
returns `Except PdfErr`, and backend calls are recorded as an event log.
Every definition mirrors a specific function of the sources
(`src/render/src/renderstate.rs`, `textstate.rs`, `graphicsstate.rs`,
`image.rs`), except where a doc comment says `Modelled from the spec:` for
code of the repository that is not present in the sources.
-/

namespace PdfRender

/-- Blend mode, from `src/render/src/backend.rs`: `enum BlendMode { Overlay, Darken }`. -/
inductive BlendMode where
  | overlay
  | darken
  deriving DecidableEq, Repr

/-- `Fill` from `src/render/src/lib.rs`:
`enum Fill { Solid(f32, f32, f32), Pattern(Ref<Pattern>) }`.
The pattern reference is modelled as its object number. -/
inductive Fill where
  | solid (r g b : ℚ)
  | pattern (ref : Nat)
  deriving DecidableEq, Repr

/-- `Fill::black()` from `src/render/src/lib.rs`. -/
def Fill.black : Fill := .solid 0 0 0

/-- `gray2rgb` from `src/render/src/renderstate.rs` line 665. -/
def gray2rgb (g : ℚ) : Fill := .solid g g g

/-- `cmyk2rgb` from `src/render/src/renderstate.rs` lines 669-676 (the
floating-point version used for color operands).  Note: the `mode` parameter
is present in the source signature but unused in the body. -/
def cmyk2rgb (cmyk : ℚ × ℚ × ℚ × ℚ) (mode : BlendMode) : Fill :=
  let (c, m, y, k) := cmyk
  let clamp : ℚ → ℚ := fun f => if f > 1 then 1 else f
  Fill.solid (1 - clamp (c + k)) (1 - clamp (m + k)) (1 - clamp (y + k))

/-- Saturating byte addition, `u8::saturating_add`. -/
def satAdd8 (a b : Nat) : Nat := min (a + b) 255

/-- `cmyk2rgb` from `src/render/src/image.rs` lines 328-345 (the byte
version used by the image decoder).  For `Overlay` the components are
inverted before applying the Darken formula. -/
def cmyk2rgbBytes (cmyk : Nat × Nat × Nat × Nat) (mode : BlendMode) : Nat × Nat × Nat :=
  let (c, m, y, k) := cmyk
  match mode with
  | .darken => (255 - satAdd8 c k, 255 - satAdd8 m k, 255 - satAdd8 y k)
  | .overlay =>
    let (c, m, y, k) := (255 - c, 255 - m, 255 - y, 255 - k)
    (255 - satAdd8 c k, 255 - satAdd8 m k, 255 - satAdd8 y k)

/-- The spec's claimed formula for the operand-level conversion: the Darken
formula, and for Overlay "the inverted form (components inverted before
applying the same formula)".  Stated from the spec's words, to compare with
`cmyk2rgb` from the source. -/
def spec_cmyk2rgb (cmyk : ℚ × ℚ × ℚ × ℚ) (mode : BlendMode) : Fill :=
  let (c, m, y, k) := cmyk
  match mode with
  | .darken => Fill.solid (1 - min 1 (c + k)) (1 - min 1 (m + k)) (1 - min 1 (y + k))
  | .overlay =>
    let (c, m, y, k) := (1 - c, 1 - m, 1 - y, 1 - k)
    Fill.solid (1 - min 1 (c + k)) (1 - min 1 (m + k)) (1 - min 1 (y + k))

/-- Error type.  `PdfError` lives in the external `pdf` crate; the model
keeps the variants the rendering code constructs (`Other`, `NotFound`,
`Bounds`), and, `Modelled from the spec:` a `GraphicsStackUnderflow`
constructor for the error kind the spec names in §7 (the sources never
construct it). -/
inductive PdfErr where
  | other (msg : String)
  | notFound (word : String)
  | bounds (index len : Nat)
  | graphicsStackUnderflow
  deriving DecidableEq, Repr

/-- The subset of `pdf::object::ColorSpace` variants exercised by the
rendering code under verification.  `Separation` carries its tint transform
as a function (the `pdf` crate's `Function` is external); `Icc` carries the
optional alternate space and the component count of the profile.
`DeviceN`, `CalCMYK` payloads and ICC profile details are dropped. -/
inductive ColorSpace where
  | deviceGray
  | deviceRGB
  | deviceCMYK
  | calGray
  | calRGB
  | calCMYK
  | indexed (base : ColorSpace) (hival : Nat) (lut : List Nat)
  | separation (name : String) (alt : ColorSpace) (tint : ℚ → List ℚ)
  | icc (alternate : Option ColorSpace) (components : Nat)
  | named (name : String)
  | pattern

/-- The subset of `pdf::primitive::Primitive` needed for color operands. -/
inductive Prim where
  | real (x : ℚ)
  | int (i : Int)
  | name (s : String)
  deriving DecidableEq, Repr

/-- `Primitive::as_number` (pdf crate): numbers and integers convert, names fail. -/
def Prim.as_number : Prim → Except PdfErr ℚ
  | .real x => .ok x
  | .int i => .ok (i : ℚ)
  | .name _ => .error (.other "expected number")

/-- `Primitive::as_integer` (pdf crate). -/
def Prim.as_integer : Prim → Except PdfErr Int
  | .int i => .ok i
  | _ => .error (.other "expected integer")

/-- `Primitive::as_name` (pdf crate). -/
def Prim.as_name : Prim → Except PdfErr String
  | .name s => .ok s
  | _ => .error (.other "expected name")

/-- `pdf::content::Color`: device color operands or a generic argument list. -/
inductive Color where
  | gray (g : ℚ)
  | rgb (r g b : ℚ)
  | cmyk (c m y k : ℚ)
  | other (args : List Prim)

/-- The two `Resources` tables color conversion consults:
`resources.color_spaces` and `resources.pattern` (pattern refs modelled as
object numbers). -/
structure Resources where
  color_spaces : String → Option ColorSpace
  pattern : String → Option Nat

/-- `convert_color2` from `src/render/src/renderstate.rs` lines 505-663,
restricted to the `ColorSpace` subset above (the `DeviceN`, `Other` and
nested-`Named` arms are omitted; they end in `unimplemented!` errors like the
arms kept).  The Rust function mutates the `&mut &ColorSpace` binding; the
model returns the updated binding alongside the fill.  `unimplemented!` is
the crate's local macro (`lib.rs` lines 16-20) returning
`PdfError::Other { msg: "Unimplemented: …" }`; the formatted tail of those
messages is abbreviated here.  In-bounds list indexing uses `getD` where the
Rust slice indexing would panic when out of bounds. -/
def convert_color2 (cs : ColorSpace) (color : Color) (resources : Resources)
    (mode : BlendMode) : Except PdfErr (ColorSpace × Fill) :=
  match color with
  | .gray g => .ok (.deviceGray, gray2rgb g)
  | .rgb r g b => .ok (.deviceRGB, Fill.solid r g b)
  | .cmyk c m y k => .ok (.deviceCMYK, cmyk2rgb (c, m, y, k) mode)
  | .other args => do
    let cs2 ← match cs with
      | .icc alternate _components =>
        match alternate with
        | some alt => Except.ok alt
        | none =>
          match args.length with
          | 3 => Except.ok ColorSpace.deviceRGB
          | 4 => Except.ok ColorSpace.deviceCMYK
          | _ => Except.error (.other "ICC profile without alternate color space")
      | .named name =>
        match resources.color_spaces name with
        | some c => Except.ok c
        | none => Except.error (.other ("named color space " ++ name ++ " not found"))
      | c => Except.ok c
    let fill ← match cs2 with
      | .icc _ _ => Except.error (.other "nested ICC color space")
      | .deviceGray | .calGray => do
        if args.length ≠ 1 then
          Except.error (.other "expected 1 color arguments")
        else do
          let g ← (args.getD 0 (.int 0)).as_number
          Except.ok (gray2rgb g)
      | .deviceRGB | .calRGB => do
        if args.length ≠ 3 then
          Except.error (.other "expected 3 color arguments")
        else do
          let r ← (args.getD 0 (.int 0)).as_number
          let g ← (args.getD 1 (.int 0)).as_number
          let b ← (args.getD 2 (.int 0)).as_number
          Except.ok (Fill.solid r g b)
      | .deviceCMYK | .calCMYK => do
        if args.length ≠ 4 then
          Except.error (.other "expected 4 color arguments")
        else do
          let c ← (args.getD 0 (.int 0)).as_number
          let m ← (args.getD 1 (.int 0)).as_number
          let y ← (args.getD 2 (.int 0)).as_number
          let k ← (args.getD 3 (.int 0)).as_number
          Except.ok (cmyk2rgb (c, m, y, k) mode)
      | .separation _name alt f => do
        if args.length ≠ 1 then
          Except.error (.other "expected 1 color arguments")
        else do
          let x ← (args.getD 0 (.int 0)).as_number
          let csAlt ← match alt with
            | .icc alternate _ =>
              match alternate with
              | some a => Except.ok a
              | none => Except.error (.other "no alternate color space in ICC profile")
            | a => Except.ok a
          match csAlt with
          | .deviceCMYK =>
            let out := f x
            Except.ok (cmyk2rgb (out.getD 0 0, out.getD 1 0, out.getD 2 0, out.getD 3 0) mode)
          | .deviceRGB =>
            let out := f x
            Except.ok (Fill.solid (out.getD 0 0) (out.getD 1 0) (out.getD 2 0))
          | .deviceGray =>
            let out := f x
            Except.ok (Fill.solid (out.getD 0 0) (out.getD 0 0) (out.getD 0 0))
          | _ => Except.error (.other "Unimplemented: Separation")
      | .indexed base _hival lut => do
        if args.length ≠ 1 then
          Except.error (.other "expected 1 color arguments")
        else do
          let i ← (args.getD 0 (.int 0)).as_integer
          match base with
          | .deviceRGB =>
            let c := lut.drop (3 * i.toNat)
            Except.ok (Fill.solid (c.getD 0 0 : Nat) (c.getD 1 0 : Nat) (c.getD 2 0 : Nat))
          | .deviceCMYK =>
            let c := lut.drop (4 * i.toNat)
            Except.ok (cmyk2rgb ((c.getD 0 0 : Nat), (c.getD 1 0 : Nat),
              (c.getD 2 0 : Nat), (c.getD 3 0 : Nat)) mode)
          | _ => Except.error (.other "Unimplemented: Indexed colorspace with base")
      | .pattern => do
        let name ← (args.getD 0 (.int 0)).as_name
        match resources.pattern name with
        | some pat => Except.ok (Fill.pattern pat)
        | none => Except.error (.other "Unimplemented: Pattern not found")
      | .named _ => Except.error (.other "Unimplemented: nested Named")
    .ok (cs, fill)

/-- `convert_color` from `src/render/src/renderstate.rs` lines 494-503:
wraps `convert_color2`, downgrading failures to solid black when
`allow_error_in_option` is set.  On the error path the colorspace binding is
left unchanged. -/
def convert_color (cs : ColorSpace) (color : Color) (resources : Resources)
    (allow_error_in_option : Bool) (mode : BlendMode) :
    Except PdfErr (ColorSpace × Fill) :=
  match convert_color2 cs color resources mode with
  | .ok r => .ok r
  | .error e =>
    if allow_error_in_option then .ok (cs, Fill.solid 0 0 0) else .error e

/-- Empty resources, for concrete evaluations. -/
def emptyResources : Resources := ⟨fun _ => none, fun _ => none⟩

/-- `pathfinder_color::ColorU`: one RGBA pixel, byte components. -/
structure ColorU where
  r : Nat
  g : Nat
  b : Nat
  a : Nat
  deriving DecidableEq, Repr

/-- Decoded image, `ImageData` from `src/render/src/image.rs`. -/
structure ImageData where
  data : List ColorU
  width : Nat
  height : Nat
  deriving DecidableEq, Repr

/-- `ImageData::new` (`image.rs` lines 18-24): rejects a pixel buffer whose
length does not equal `width × height`. -/
def ImageData.new (data : List ColorU) (width height : Nat) : Option ImageData :=
  if width * height ≠ data.length then none else some ⟨data, width, height⟩

/-- `ex` from `image.rs` lines 167-170: extract the low `bits` bits. -/
def ex (b bits : Nat) : Nat := b &&& ((1 <<< bits) - 1)

/-- `rgb2rgba` from `image.rs` lines 300-310. -/
def rgb2rgba (c : Nat × Nat × Nat) (a : Nat) (mode : BlendMode) : ColorU :=
  match mode with
  | .overlay => ⟨c.1, c.2.1, c.2.2, a⟩
  | .darken => ⟨255 - c.1, 255 - c.2.1, 255 - c.2.2, a⟩

/-- Rust `as u8` cast from `f32`: saturating, truncating toward zero. -/
def toByte (q : ℚ) : Nat := min (max 0 ⌊q⌋).toNat 255

/-- `rgb2rgb` from `image.rs` lines 311-321. -/
def rgb2rgb (r g b : ℚ) (mode : BlendMode) : Nat × Nat × Nat :=
  match mode with
  | .overlay => (toByte (255 * r), toByte (255 * g), toByte (255 * b))
  | .darken => (255 - toByte (255 * r), 255 - toByte (255 * g), 255 - toByte (255 * b))

/-- `cmyk2color` from `image.rs` lines 347-351. -/
def cmyk2color (cmyk : Nat × Nat × Nat × Nat) (a : Nat) (mode : BlendMode) : ColorU :=
  let (r, g, b) := cmyk2rgbBytes cmyk mode
  ⟨r, g, b, a⟩

/-- `slice::chunks_exact(3)`: an incomplete trailing chunk is dropped. -/
def chunks3 : List Nat → List (Nat × Nat × Nat)
  | a :: b :: c :: t => (a, b, c) :: chunks3 t
  | _ => []

/-- `slice::chunks_exact(4)`: an incomplete trailing chunk is dropped. -/
def chunks4 : List Nat → List (Nat × Nat × Nat × Nat)
  | a :: b :: c :: d :: t => (a, b, c, d) :: chunks4 t
  | _ => []

/-- `resolve_cs` from `image.rs` lines 172-188. -/
def resolve_cs (cs : ColorSpace) (resources : Resources) : Option ColorSpace :=
  match cs with
  | .icc alternate components =>
    match alternate with
    | some b => some b
    | none =>
      match components with
      | 1 => some .deviceGray
      | 3 => some .deviceRGB
      | 4 => some .deviceCMYK
      | _ => none
  | .named name => resources.color_spaces name
  | c => some c

/-- Indexed-base lookup of `k` consecutive bytes, `lookup.get(off .. off+k)`
with the `Bounds` error of `image.rs` lines 219 and 229. -/
def lutSlice (lookup : List Nat) (off k : Nat) : Except PdfErr (List Nat) :=
  if off + k ≤ lookup.length then .ok ((lookup.drop off).take k)
  else .error (.bounds off lookup.length)

/-- `load_image` from `src/render/src/image.rs` lines 109-298, split into
this ratio dispatch and the `load_image` wrapper below.  Modelled without a
soft mask (`smask = None`, so every alpha byte is 255; the mask decoding and
Catmull-Rom resize path is not modelled).  Faithful points: a raw length that
is not a multiple of the pixel count only logs a warning (lines 114-118) and
decoding continues; `data_ratio` is the floor of `8·len/pixel_count`
(line 192); a ratio outside {1,2,4,8,24,32} returns the crate's
`unimplemented!` error, i.e. `PdfError::Other { "Unimplemented: data/pixel
ratio N" }`; the Indexed-CMYK arm hardcodes `BlendMode::Darken` (line 230).
The `Separation` image LUT index is a byte in Rust (`lut[b as usize]`,
modelled with `min b 255`), and a zero pixel count (a division panic in
Rust) is outside the model. -/
def decode_ratio (pixel_count data_ratio : Nat) (raw : List Nat)
    (csR : Option ColorSpace) (resources : Resources) (mode : BlendMode) :
    Except PdfErr (List ColorU) :=
  (match data_ratio with
    | 1 | 2 | 4 | 8 => do
      let pixel_data : List Nat :=
        match data_ratio with
        | 1 => (raw.flatMap (fun b => (List.range 8).map (fun i => ex (b >>> i) 1))).take pixel_count
        | 2 => (raw.flatMap (fun b => (List.range 4).map (fun i => ex (b >>> (2 * i)) 2))).take pixel_count
        | 4 => (raw.flatMap (fun b => (List.range 2).map (fun i => ex (b >>> (4 * i)) 4))).take pixel_count
        | _ => raw.take pixel_count
      match csR with
      | some .deviceGray =>
        if pixel_data.length ≠ pixel_count then
          Except.error (.other "pixel_data.len() != pixel_count")
        else
          Except.ok (pixel_data.map (fun g => ColorU.mk g g g 255))
      | some (.indexed base _hival lookup) =>
        match resolve_cs base resources with
        | some .deviceRGB =>
          pixel_data.mapM (fun b => do
            let c ← lutSlice lookup (b * 3) 3
            Except.ok (rgb2rgba (c.getD 0 0, c.getD 1 0, c.getD 2 0) 255 mode))
        | some .deviceCMYK =>
          pixel_data.mapM (fun b => do
            let c ← lutSlice lookup (b * 4) 4
            Except.ok (cmyk2color (c.getD 0 0, c.getD 1 0, c.getD 2 0, c.getD 3 0) 255 .darken))
        | _ => Except.error (.other "Unimplemented: base cs")
      | some (.separation _name alt func) => do
        let lut : Nat → Nat × Nat × Nat ←
          match resolve_cs alt resources with
          | some .deviceRGB =>
            Except.ok (fun i =>
              let out := func ((i : ℚ) / 255)
              rgb2rgb (out.getD 0 0) (out.getD 1 0) (out.getD 2 0) mode)
          | some .deviceCMYK =>
            Except.ok (fun i =>
              let out := func ((i : ℚ) / 255)
              cmyk2rgbBytes (toByte (out.getD 0 0 * 255), toByte (out.getD 1 0 * 255),
                toByte (out.getD 2 0 * 255), toByte (out.getD 3 0 * 255)) mode)
          | _ => Except.error (.other "Unimplemented: alt cs")
        Except.ok (pixel_data.map (fun b =>
          let (r, g, bl) := lut (min b 255)
          ColorU.mk r g bl 255))
      | none =>
        if pixel_data.length ≠ pixel_count then
          Except.error (.other "pixel_data.len() != pixel_count")
        else
          Except.ok (pixel_data.map (fun g => ColorU.mk g g g 255))
      | _ => Except.error (.other "Unimplemented: cs")
    | 24 => Except.ok ((chunks3 (raw.take (pixel_count * 3))).map (fun c => rgb2rgba c 255 mode))
    | 32 => Except.ok ((chunks4 (raw.take (pixel_count * 4))).map (fun c => cmyk2color c 255 mode))
    | n => Except.error (.other ("Unimplemented: data/pixel ratio " ++ toString n)))

/-- The body of `load_image`: resolve the color space, dispatch on the
data/pixel ratio (`decode_ratio` above), then the `ImageData::new` size
check of lines 287-297. -/
def load_image (width height : Nat) (raw : List Nat) (cs : Option ColorSpace)
    (resources : Resources) (mode : BlendMode) : Except PdfErr ImageData := do
  let data ← decode_ratio (width * height) (raw.length * 8 / (width * height)) raw
    (cs.bind (fun c => resolve_cs c resources)) resources mode
  match ImageData.new data width height with
  | some d => .ok d
  | none => .error (.other "size mismatch")

/-- `pathfinder_color::ColorF`: RGBA with float components. -/
structure ColorF where
  r : ℚ
  g : ℚ
  b : ℚ
  a : ℚ
  deriving DecidableEq, Repr

/-- `pathfinder_geometry::transform2d::Transform2F`: a 2D affine map in
column-vector convention, `p ↦ (m11·x + m12·y + m13, m21·x + m22·y + m23)`.
`row_major(a, b, c, d, e, f)` fills `(m11, m12, m13, m21, m22, m23)` — so
`renderstate.rs`'s `Matrix → row_major(a, c, e, b, d, f)` realizes the PDF
matrix semantics `(x, y) ↦ (a·x + c·y + e, b·x + d·y + f)`. -/
structure Transform2F where
  m11 : ℚ
  m12 : ℚ
  m13 : ℚ
  m21 : ℚ
  m22 : ℚ
  m23 : ℚ
  deriving DecidableEq, Repr

/-- `Transform2F::default()`: the identity. -/
def Transform2F.id : Transform2F := ⟨1, 0, 0, 0, 1, 0⟩

/-- `Transform2F::row_major`. -/
def Transform2F.row_major (a b c d e f : ℚ) : Transform2F := ⟨a, b, c, d, e, f⟩

/-- Composition: `(A * B) p = A (B p)`. -/
def Transform2F.mul (A B : Transform2F) : Transform2F :=
  ⟨A.m11 * B.m11 + A.m12 * B.m21, A.m11 * B.m12 + A.m12 * B.m22,
   A.m11 * B.m13 + A.m12 * B.m23 + A.m13,
   A.m21 * B.m11 + A.m22 * B.m21, A.m21 * B.m12 + A.m22 * B.m22,
   A.m21 * B.m13 + A.m22 * B.m23 + A.m23⟩

instance : Mul Transform2F := ⟨Transform2F.mul⟩

/-- `Transform2F::from_translation`. -/
def Transform2F.from_translation (v : ℚ × ℚ) : Transform2F := ⟨1, 0, v.1, 0, 1, v.2⟩

/-- `Transform2F::from_scale`. -/
def Transform2F.from_scale (v : ℚ × ℚ) : Transform2F := ⟨v.1, 0, 0, 0, v.2, 0⟩

/-- `Transform2F::translation()`. -/
def Transform2F.translation (t : Transform2F) : ℚ × ℚ := (t.m13, t.m23)

/-- `pathfinder_geometry::rect::RectF`, stored as min/max corners. -/
structure RectQ where
  minX : ℚ
  minY : ℚ
  maxX : ℚ
  maxY : ℚ
  deriving DecidableEq, Repr

/-- `RectF::union_rect`. -/
def RectQ.union (r1 r2 : RectQ) : RectQ :=
  ⟨min r1.minX r2.minX, min r1.minY r2.minY, max r1.maxX r2.maxX, max r1.maxY r2.maxY⟩

/-- Image of the point under the affine map. -/
def Transform2F.apply (t : Transform2F) (p : ℚ × ℚ) : ℚ × ℚ :=
  (t.m11 * p.1 + t.m12 * p.2 + t.m13, t.m21 * p.1 + t.m22 * p.2 + t.m23)

/-- Affine image of a rectangle: the bounding box of the four transformed
corners (pathfinder's `Transform2F * RectF`). -/
def Transform2F.applyRect (t : Transform2F) (r : RectQ) : RectQ :=
  let p1 := t.apply (r.minX, r.minY)
  let p2 := t.apply (r.maxX, r.minY)
  let p3 := t.apply (r.maxX, r.maxY)
  let p4 := t.apply (r.minX, r.maxY)
  ⟨min (min p1.1 p2.1) (min p3.1 p4.1), min (min p1.2 p2.2) (min p3.2 p4.2),
   max (max p1.1 p2.1) (max p3.1 p4.1), max (max p1.2 p2.2) (max p3.2 p4.2)⟩

/-- `BBox` from `src/render/src/lib.rs` lines 51-71: an optional rect grown
by union. -/
structure BBox where
  rect : Option RectQ
  deriving DecidableEq, Repr

/-- `BBox::add`. -/
def BBox.add (b : BBox) (r2 : RectQ) : BBox :=
  ⟨some (match b.rect with
    | some r1 => r1.union r2
    | none => r2)⟩

/-- `pdf::content::TextMode` (the six variants `textstate.rs` matches on). -/
inductive TextMode where
  | fill
  | stroke
  | fillThenStroke
  | invisible
  | fillAndClip
  | strokeAndClip
  deriving DecidableEq, Repr

/-- `pathfinder_content::stroke::LineCap`. -/
inductive LineCap where
  | butt
  | square
  | round
  deriving DecidableEq, Repr

/-- `pathfinder_content::stroke::LineJoin`. -/
inductive LineJoin where
  | miter (limit : ℚ)
  | bevel
  | round
  deriving DecidableEq, Repr

/-- `pathfinder_content::stroke::StrokeStyle`. -/
structure StrokeStyle where
  line_cap : LineCap
  line_join : LineJoin
  line_width : ℚ
  deriving DecidableEq, Repr

/-- `pathfinder_content::fill::FillRule`. -/
inductive FillRule where
  | winding
  | evenOdd
  deriving DecidableEq, Repr

/-- One glyph of the parsed font program, as `textstate.rs` consumes it:
its advance metric, its outline's segment count (`glyph.path.len()`) and
the outline's bounding box (`glyph.path.bounds()`). -/
structure Glyph where
  advance : ℚ
  pathLen : Nat
  bounds : RectQ

/-- The parsed font program (`FontRc`, external `font` crate), reduced to
what `draw_text` consumes: the font matrix and the glyph table. -/
structure FontProgram where
  font_matrix : Transform2F
  glyph : Nat → Option Glyph

/-- `TextEncoding` from `src/render/src/fontentry.rs` lines 13-16:
`CID(Option<HashMap<u16, (Option<GlyphId>, SmallString)>>)` and
`Cmap(HashMap<u16, (GlyphId, Option<SmallString>)>)`, with the hash maps
modelled as partial functions. -/
inductive TextEncoding where
  | cid (to_unicode : Option (Nat → Option (Option Nat × String)))
  | cmap (map : Nat → Option (Nat × Option String))

/-- `FontEntry` from `src/render/src/fontentry.rs` lines 18-25 (the
`pdf_font` back-reference is omitted; `Widths::get` is modelled as the
total lookup function it is in the `pdf` crate). -/
structure FontEntry where
  font : FontProgram
  encoding : TextEncoding
  widths : Option (Nat → ℚ)
  is_cid : Bool
  name : String

/-- `TextState` from `src/render/src/textstate.rs` lines 20-33. -/
structure TextState where
  text_matrix : Transform2F
  line_matrix : Transform2F
  char_space : ℚ
  word_space : ℚ
  horiz_scale : ℚ
  leading : ℚ
  font_entry : Option FontEntry
  font_size : ℚ
  mode : TextMode
  rise : ℚ
  knockout : ℚ

/-- `TextState::new` (`textstate.rs` lines 35-49). -/
def TextState.new : TextState :=
  { text_matrix := .id, line_matrix := .id, char_space := 0, word_space := 0,
    horiz_scale := 1, leading := 0, font_entry := none, font_size := 0,
    mode := .fill, rise := 0, knockout := 0 }

/-- `TextState::set_matrix` (`textstate.rs` lines 63-66). -/
def TextState.set_matrix (ts : TextState) (m : Transform2F) : TextState :=
  { ts with text_matrix := m, line_matrix := m }

/-- `TextState::reset_matrix` (`textstate.rs` lines 50-52). -/
def TextState.reset_matrix (ts : TextState) : TextState := ts.set_matrix .id

/-- `TextState::translate` (`textstate.rs` lines 53-56). -/
def TextState.translate (ts : TextState) (v : ℚ × ℚ) : TextState :=
  ts.set_matrix (ts.line_matrix * Transform2F.from_translation v)

/-- `TextState::next_line` (`textstate.rs` lines 59-61). -/
def TextState.next_line (ts : TextState) : TextState := ts.translate (0, -ts.leading)

/-- `TextState::advance` (`textstate.rs` lines 171-176): translate the text
matrix and return the advance. -/
def TextState.advance (ts : TextState) (delta : ℚ) : TextState × ℚ :=
  let advance := delta * ts.font_size * ts.horiz_scale
  ({ ts with text_matrix := ts.text_matrix * Transform2F.from_translation (advance, 0) }, advance)

/-- `TextChar` from `src/render/src/lib.rs` lines 249-254. -/
structure TextChar where
  offset : Nat
  pos : ℚ
  width : ℚ
  deriving DecidableEq, Repr

/-- `Span` from `src/render/src/textstate.rs` lines 179-185
(`#[derive(Default)]`). -/
structure Span where
  text : String
  chars : List TextChar
  width : ℚ
  bbox : BBox

/-- `Span::default()`. -/
def Span.default : Span := ⟨"", [], 0, ⟨none⟩⟩

/-- The dash state of the renderstate-revision graphics state (`Op::Dash`
stores the pattern and phase). -/
abbrev DashPattern := Option (List ℚ × ℚ)

/-- `ClipPath` (pathfinder scene): an outline with a fill rule.  Outlines
are modelled below; here only identity matters, so the payload is the
fill rule and an opaque outline id. -/
structure ClipPath where
  outlineId : Nat
  fill_rule : FillRule
  deriving DecidableEq, Repr

/-- The `GraphicsState` revision used by `renderstate.rs` (its struct
definition is not among the sources; the fields and their initial values are
taken from `RenderState::new`, `renderstate.rs` lines 90-114). -/
structure GraphicsState where
  transform : Transform2F
  fill_color : Fill
  fill_color_alpha : ℚ
  fill_paint : Option Nat
  fill_alpha : ℚ
  stroke_color : Fill
  stroke_color_alpha : ℚ
  stroke_paint : Option Nat
  stroke_alpha : ℚ
  clip_path_id : Option Nat
  clip_path : Option ClipPath
  clip_path_rect : Option RectQ
  fill_color_space : ColorSpace
  stroke_color_space : ColorSpace
  stroke_style : StrokeStyle
  dash_pattern : DashPattern
  overprint_fill : Bool
  overprint_stroke : Bool
  overprint_mode : Int

/-- Modelled from the spec: `GraphicsState::set_fill_color` of the
renderstate revision is not among the sources; per the spec the color is
stored and the cached paint is "invalidated on change". -/
def GraphicsState.set_fill_color (g : GraphicsState) (c : Fill) : GraphicsState :=
  if c ≠ g.fill_color then { g with fill_color := c, fill_paint := none } else g

/-- Modelled from the spec: symmetric to `set_fill_color`. -/
def GraphicsState.set_stroke_color (g : GraphicsState) (c : Fill) : GraphicsState :=
  if c ≠ g.stroke_color then { g with stroke_color := c, stroke_paint := none } else g

/-- Modelled from the spec: `GraphicsState::set_fill_alpha` of the
renderstate revision (applied by the ExtGState operator). -/
def GraphicsState.set_fill_alpha (g : GraphicsState) (a : ℚ) : GraphicsState :=
  { g with fill_color_alpha := a }

/-- Modelled from the spec: symmetric to `set_fill_alpha`. -/
def GraphicsState.set_stroke_alpha (g : GraphicsState) (a : ℚ) : GraphicsState :=
  { g with stroke_color_alpha := a }

/-- Modelled from the spec: `GraphicsState::stroke()` bundles the stroke
configuration (style and dash pattern) handed to the backend. -/
def GraphicsState.stroke (g : GraphicsState) : StrokeStyle × DashPattern :=
  (g.stroke_style, g.dash_pattern)

/-- The draw mode `draw_text` builds from the graphics state
(`textstate.rs` lines 103-114). -/
inductive TextDrawMode where
  | fill (color : Fill) (alpha : ℚ)
  | fillStroke (fill : Fill) (fa : ℚ) (strokeColor : Fill) (sa : ℚ)
      (strokeCfg : StrokeStyle × DashPattern)
  | strokeOnly (color : Fill) (alpha : ℚ) (strokeCfg : StrokeStyle × DashPattern)

/-- Backend calls `draw_text` makes, recorded as events. -/
inductive TSEvent where
  | draw_glyph (gid : Nat) (mode : TextDrawMode) (transform : Transform2F)

/-- `u16::from_be_bytes` over `chunks_exact(2)` (`textstate.rs` line 77):
consecutive 2-byte big-endian chunks; a trailing odd byte is dropped by
`chunks_exact`. -/
def decodeBE2 : List Nat → List Nat
  | a :: b :: t => (a * 256 + b) :: decodeBE2 t
  | _ => []

/-- `std::char::from_u32(cid).map(SmallString::from)` (`textstate.rs`
line 85). -/
def charFromU32 (n : Nat) : Option String :=
  if n.isValidChar then some (String.singleton (Char.ofNat n)) else none

/-- A decoded glyph record `(cid, gid, unicode)` (`textstate.rs`
lines 82-101). -/
abbrev GlyphRec := Nat × Option Nat × Option String

/-- The cmap lookup of `textstate.rs` lines 82-101, one record per
codepoint. -/
def lookupGlyph (enc : TextEncoding) (cid : Nat) : GlyphRec :=
  match enc with
  | .cid none => (cid, some cid, charFromU32 cid)
  | .cid (some to_unicode) =>
    match to_unicode cid with
    | some (gid, unicode) => (cid, gid, some unicode)
    | none => (cid, none, none)
  | .cmap map =>
    match map cid with
    | some (gid, unicode) => (cid, some gid, unicode)
    | none => (cid, none, none)

/-- The per-glyph width of `textstate.rs` lines 134-136: the PDF widths
table scaled by 0.001·horiz_scale·font_size when present, else the font
program's advance scaled by `tr.m11()`, else 0. -/
def glyphWidth (e : FontEntry) (tr : Transform2F) (horiz_scale font_size : ℚ)
    (cid gid : Nat) : ℚ :=
  match e.widths with
  | some w => w cid * (1 / 1000) * horiz_scale * font_size
  | none =>
    match e.font.glyph gid with
    | some g => tr.m11 * g.advance
    | none => 0

/-- The mutable loop state of `draw_text`: the text matrix, the span under
construction and the backend calls made so far. -/
structure DTAcc where
  text_matrix : Transform2F
  span : Span
  events : List TSEvent

/-- One iteration of the glyph loop of `draw_text` (`textstate.rs`
lines 122-169).  The space branch (lines 138-144) advances by
`word_space · horiz_scale + width`, records a `' '` and skips the glyph;
the normal branch draws (when a glyph with a non-empty outline exists and
the draw mode is visible), advances by `char_space · horiz_scale + width`
and records the unicode fragment and a `TextChar` when a fragment exists. -/
def drawTextStep (e : FontEntry) (gs : GraphicsState) (tr : Transform2F)
    (draw_mode : Option TextDrawMode) (char_space word_space horiz_scale font_size : ℚ)
    (acc : DTAcc) (rec : GlyphRec) : DTAcc :=
  let (cid, gidOpt, unicode) := rec
  let is_space := (match e.encoding with
    | .cmap _ => true
    | _ => false) && (unicode == some " ")
  let gid := gidOpt.getD 0
  let glyph := e.font.glyph gid
  let width := glyphWidth e tr horiz_scale font_size cid gid
  if is_space then
    let advance := word_space * horiz_scale + width
    { acc with
      text_matrix := acc.text_matrix * Transform2F.from_translation (advance, 0),
      span := { acc.span with
        width := acc.span.width + advance,
        text := acc.span.text.push ' ' } }
  else
    let acc1 :=
      match glyph with
      | some gl =>
        let transform := gs.transform * acc.text_matrix * tr
        if gl.pathLen ≠ 0 then
          let accB := { acc with span := { acc.span with
            bbox := acc.span.bbox.add ((gs.transform * transform).applyRect gl.bounds) } }
          match draw_mode with
          | some dm => { accB with events := accB.events ++ [TSEvent.draw_glyph gid dm transform] }
          | none => accB
        else acc
      | none => acc
    let advance := char_space * horiz_scale + width
    let acc2 := { acc1 with
      text_matrix := acc1.text_matrix * Transform2F.from_translation (advance, 0) }
    let offset := acc2.span.text.utf8ByteSize
    let acc3 :=
      match unicode with
      | some s => { acc2 with span := { acc2.span with
          text := acc2.span.text ++ s,
          chars := acc2.span.chars ++ [TextChar.mk offset acc2.span.width width] } }
      | none => acc2
    { acc3 with span := { acc3.span with width := acc3.span.width + advance } }

/-- `TextState::draw_text` from `src/render/src/textstate.rs` lines 67-170.
Returns the updated text state (only the text matrix mutates), the grown
span and the backend calls; with no font set it is a no-op (lines 68-74). -/
def TextState.draw_text (ts : TextState) (gs : GraphicsState) (data : List Nat)
    (span : Span) : TextState × Span × List TSEvent :=
  match ts.font_entry with
  | none => (ts, span, [])
  | some e =>
    let codepoints := if e.is_cid then decodeBE2 data else data
    let glyphs := codepoints.map (lookupGlyph e.encoding)
    let draw_mode : Option TextDrawMode :=
      match ts.mode with
      | .fill => some (.fill gs.fill_color gs.fill_color_alpha)
      | .fillAndClip => some (.fill gs.fill_color gs.fill_color_alpha)
      | .fillThenStroke => some (.fillStroke gs.fill_color gs.fill_color_alpha
          gs.stroke_color gs.stroke_color_alpha gs.stroke)
      | .invisible => none
      | .stroke => some (.strokeOnly gs.stroke_color gs.stroke_color_alpha gs.stroke)
      | .strokeAndClip => some (.strokeOnly gs.stroke_color gs.stroke_color_alpha gs.stroke)
    let tr := Transform2F.row_major (ts.horiz_scale * ts.font_size) 0 0 0 ts.font_size ts.rise *
      e.font.font_matrix
    let fin := glyphs.foldl
      (drawTextStep e gs tr draw_mode ts.char_space ts.word_space ts.horiz_scale ts.font_size)
      ⟨ts.text_matrix, span, []⟩
    ({ ts with text_matrix := fin.text_matrix }, fin.span, fin.events)

/-- The graphics state `RenderState::new` builds (`renderstate.rs`
lines 90-114) for a given root transformation. -/
def initialGraphicsState (root : Transform2F) : GraphicsState :=
  { transform := root, fill_color := Fill.black, fill_color_alpha := 1, fill_paint := none,
    fill_alpha := 1, stroke_color := Fill.black, stroke_color_alpha := 1, stroke_paint := none,
    stroke_alpha := 1, clip_path_id := none, clip_path := none, clip_path_rect := none,
    fill_color_space := .deviceRGB, stroke_color_space := .deviceRGB,
    stroke_style := { line_cap := .butt, line_join := .miter 1, line_width := 1 },
    dash_pattern := none, overprint_fill := false, overprint_stroke := false,
    overprint_mode := 0 }

/-- The initial graphics state under an identity root transform. -/
def gsInit : GraphicsState := initialGraphicsState .id

/-- The effective advance of one decoded glyph record, read off the two
branches of the glyph loop: `word_space·horiz_scale + width` for the space
branch, `char_space·horiz_scale + width` otherwise. -/
def advanceOf (e : FontEntry) (tr : Transform2F) (char_space word_space horiz_scale font_size : ℚ)
    (rec : GlyphRec) : ℚ :=
  let (cid, gidOpt, unicode) := rec
  let is_space := (match e.encoding with
    | .cmap _ => true
    | _ => false) && (unicode == some " ")
  let width := glyphWidth e tr horiz_scale font_size cid (gidOpt.getD 0)
  if is_space then word_space * horiz_scale + width else char_space * horiz_scale + width

/-- A non-CID font whose single mapping sends code 32 to glyph 1 with
unicode `" "`, all PDF widths 0. -/
def spaceFont : FontEntry :=
  { font := { font_matrix := .id, glyph := fun _ => none },
    encoding := .cmap (fun cid => if cid = 32 then some (1, some " ") else none),
    widths := some (fun _ => 0),
    is_cid := false,
    name := "F0" }

/-- A text state with `char_space = 1` and the space font selected. -/
def tsSpace : TextState :=
  { TextState.new with char_space := 1, font_entry := some spaceFont, font_size := 1 }

/-- A non-CID font mapping code 65 to glyph 1 with unicode `"A"`, PDF width
2000 (so the scaled width is 2 at font size 1). -/
def fontA : FontEntry :=
  { font := { font_matrix := .id, glyph := fun _ => none },
    encoding := .cmap (fun cid => if cid = 65 then some (1, some "A") else none),
    widths := some (fun _ => 2000),
    is_cid := false,
    name := "F1" }

/-- A text state with `char_space = 1` and `fontA` selected. -/
def tsA : TextState :=
  { TextState.new with char_space := 1, font_entry := some fontA, font_size := 1 }

/-- A CID-keyed font with the trivial `CID(None)` encoding. -/
def cidFont : FontEntry :=
  { font := { font_matrix := .id, glyph := fun _ => none },
    encoding := .cid none,
    widths := none,
    is_cid := true,
    name := "F2" }

/-- A text state with the CID font selected. -/
def tsCid : TextState :=
  { TextState.new with font_entry := some cidFont, font_size := 1 }

/-- `pdf::content::Matrix` (a b c d e f). -/
structure Matrix where
  a : ℚ
  b : ℚ
  c : ℚ
  d : ℚ
  e : ℚ
  f : ℚ
  deriving DecidableEq, Repr

/-- `Cvt for Matrix` (`renderstate.rs` lines 37-43):
`Transform2F::row_major(a, c, e, b, d, f)`. -/
def Matrix.cvt (m : Matrix) : Transform2F := .row_major m.a m.c m.e m.b m.d m.f

/-- `pdf::content::Point`. -/
structure Point where
  x : ℚ
  y : ℚ
  deriving DecidableEq, Repr

/-- `Cvt for Point` (`renderstate.rs` lines 31-36). -/
def Point.cvt (p : Point) : ℚ × ℚ := (p.x, p.y)

/-- `pdf::content::Rect` (x, y, width, height). -/
structure PRect where
  x : ℚ
  y : ℚ
  width : ℚ
  height : ℚ
  deriving DecidableEq, Repr

/-- `Cvt for Rect` (`renderstate.rs` lines 44-52): `RectF::new(origin, size)`. -/
def PRect.cvt (r : PRect) : RectQ := ⟨r.x, r.y, r.x + r.width, r.y + r.height⟩

/-- `pdf::content::Winding`. -/
inductive Winding where
  | nonZero
  | evenOdd
  deriving DecidableEq, Repr

/-- `Cvt for Winding` (`renderstate.rs` lines 53-61). -/
def Winding.cvt : Winding → FillRule
  | .nonZero => .winding
  | .evenOdd => .evenOdd

/-- A contour segment (pathfinder `Contour` content): an on-curve endpoint
or a cubic Bézier with two controls. -/
inductive Seg where
  | endpoint (p : ℚ × ℚ)
  | cubic (c1 c2 p : ℚ × ℚ)
  deriving DecidableEq, Repr

/-- pathfinder `Contour`: a segment list plus the closed flag. -/
structure Contour where
  segs : List Seg
  closed : Bool
  deriving DecidableEq, Repr

/-- `Contour::new` / the state after `clear()`. -/
def Contour.empty : Contour := ⟨[], false⟩

/-- `Contour::is_empty`. -/
def Contour.is_empty (c : Contour) : Bool := c.segs.isEmpty

/-- `Contour::push_endpoint`. -/
def Contour.push_endpoint (c : Contour) (p : ℚ × ℚ) : Contour :=
  { c with segs := c.segs ++ [.endpoint p] }

/-- `Contour::push_cubic`. -/
def Contour.push_cubic (c : Contour) (c1 c2 p : ℚ × ℚ) : Contour :=
  { c with segs := c.segs ++ [.cubic c1 c2 p] }

/-- `Contour::close`. -/
def Contour.close (c : Contour) : Contour := { c with closed := true }

/-- `Contour::from_rect`: the four corners, closed. -/
def Contour.from_rect (r : RectQ) : Contour :=
  ⟨[.endpoint (r.minX, r.minY), .endpoint (r.maxX, r.minY),
    .endpoint (r.maxX, r.maxY), .endpoint (r.minX, r.maxY)], true⟩

/-- pathfinder `Outline`: a contour list. -/
abbrev Outline := List Contour

/-- `FillMode` from `src/render/src/backend.rs`. -/
structure FillMode where
  color : Fill
  alpha : ℚ
  mode : BlendMode
  deriving DecidableEq, Repr

/-- `DrawMode` as `renderstate.rs` constructs it (lines 166-198):
fill/stroke `FillMode`s plus the stroke configuration from
`GraphicsState::stroke()`. -/
inductive DrawMode where
  | fill (fill : FillMode)
  | stroke (stroke : FillMode) (stroke_mode : StrokeStyle × DashPattern)
  | fillStroke (fill : FillMode) (stroke : FillMode) (stroke_mode : StrokeStyle × DashPattern)
  deriving DecidableEq, Repr

/-- Backend calls made by the interpreter, recorded as events. -/
inductive BEvent where
  | draw (outline : Outline) (mode : DrawMode) (fill_rule : FillRule)
      (transform : Transform2F) (clip : Option Nat)
  deriving DecidableEq, Repr

/-- The operator subset modelled from `pdf::content::Op`, covering every
`draw_op` arm that touches only interpreter state and recorded backend
draws.  `Clip`, `Shade`, `GraphicsState(name)`, `TextFont`, `TextDraw`,
`TextDrawAdjusted`, `XObject` and `InlineImage` are outside the model (they
need the backend's font/clip/image services); payloads the handlers ignore
(`LineJoin`, `LineCap`, `MiterLimit`, `Flatness`, `RenderingIntent`,
marked-content arguments) are dropped. -/
inductive Op where
  | beginMarkedContent
  | endMarkedContent
  | markedContentPoint
  | close
  | moveTo (p : Point)
  | lineTo (p : Point)
  | curveTo (c1 c2 p : Point)
  | rect (r : PRect)
  | endPath
  | stroke
  | fillAndStroke (winding : Winding)
  | fill (winding : Winding)
  | save
  | restore
  | transform (matrix : Matrix)
  | lineWidth (width : ℚ)
  | dash (pattern : List ℚ) (phase : ℚ)
  | lineJoin
  | lineCap
  | miterLimit
  | flatness
  | strokeColor (color : Color)
  | fillColor (color : Color)
  | fillColorSpace (name : String)
  | strokeColorSpace (name : String)
  | renderingIntent
  | beginText
  | endText
  | charSpacing (char_space : ℚ)
  | wordSpacing (word_space : ℚ)
  | textScaling (horiz_scale : ℚ)
  | leading (leading : ℚ)
  | textRenderMode (mode : TextMode)
  | textRise (rise : ℚ)
  | moveTextPosition (translation : Point)
  | setTextMatrix (matrix : Matrix)
  | textNewline

/-- The interpreter state of `RenderState` (`renderstate.rs` lines 77-86):
graphics and text state, the save stack (top at the head), the path under
construction, and the backend's recorded draw calls. -/
structure RState where
  graphics_state : GraphicsState
  text_state : TextState
  stack : List (GraphicsState × TextState)
  current_outline : Outline
  current_contour : Contour
  events : List BEvent

/-- The interpreter context: the page resources and the
`allow_error_in_option` flag of `Resolve::options()`. -/
structure Ctx where
  resources : Resources
  allow_error_in_option : Bool

/-- `RenderState::new` (`renderstate.rs` lines 89-130). -/
def RState.new (root : Transform2F) : RState :=
  ⟨initialGraphicsState root, TextState.new, [], [], Contour.empty, []⟩

/-- `RenderState::flush` (`renderstate.rs` lines 439-444). -/
def RState.flush (s : RState) : RState :=
  if s.current_contour.is_empty then s
  else { s with current_outline := s.current_outline ++ [s.current_contour],
                current_contour := Contour.empty }

/-- `RenderState::draw` (`renderstate.rs` lines 131-135): flush, emit a
backend draw with the current transform and clip, clear the outline. -/
def RState.draw (s : RState) (mode : DrawMode) (fill_rule : FillRule) : RState :=
  let s1 := s.flush
  { s1 with
    events := s1.events ++ [BEvent.draw s1.current_outline mode fill_rule
      s1.graphics_state.transform s1.graphics_state.clip_path_id],
    current_outline := [] }

/-- `blend_mode_fill` (`renderstate.rs` lines 382-388). -/
def RState.blend_mode_fill (s : RState) : BlendMode :=
  if s.graphics_state.overprint_fill then .darken else .overlay

/-- `blend_mode_stroke` (`renderstate.rs` lines 389-395). -/
def RState.blend_mode_stroke (s : RState) : BlendMode :=
  if s.graphics_state.overprint_stroke then .darken else .overlay

/-- `RenderState::color_space` (`renderstate.rs` lines 426-438). -/
def lookup_color_space (name : String) (resources : Resources) : Except PdfErr ColorSpace :=
  match name with
  | "DeviceGray" => .ok .deviceGray
  | "DeviceRGB" => .ok .deviceRGB
  | "DeviceCMYK" => .ok .deviceCMYK
  | "Pattern" => .ok .pattern
  | _ =>
    match resources.color_spaces name with
    | some cs => .ok cs
    | none => .error (.other ("color space " ++ name ++ " not present"))

/-- `RenderState::draw_op` (`renderstate.rs` lines 137-380) over the
modelled operator subset.  Each arm mirrors the corresponding `match *op`
arm of the source; `Op::Restore` fails with the source's
`PdfError::Other { msg: "graphcs stack is empty" }` on an empty stack
(line 240). -/
def draw_op (ctx : Ctx) (s : RState) (op : Op) : Except PdfErr RState :=
  match op with
  | .beginMarkedContent => .ok s
  | .endMarkedContent => .ok s
  | .markedContentPoint => .ok s
  | .close => .ok { s with current_contour := s.current_contour.close }
  | .moveTo p =>
    let s1 := s.flush
    .ok { s1 with current_contour := s1.current_contour.push_endpoint p.cvt }
  | .lineTo p => .ok { s with current_contour := s.current_contour.push_endpoint p.cvt }
  | .curveTo c1 c2 p =>
    .ok { s with current_contour := s.current_contour.push_cubic c1.cvt c2.cvt p.cvt }
  | .rect r =>
    let s1 := s.flush
    .ok { s1 with current_outline := s1.current_outline ++ [Contour.from_rect r.cvt] }
  | .endPath => .ok { s with current_contour := Contour.empty, current_outline := [] }
  | .stroke =>
    .ok (s.draw (.stroke ⟨s.graphics_state.stroke_color, s.graphics_state.stroke_color_alpha,
      s.blend_mode_stroke⟩ s.graphics_state.stroke) .winding)
  | .fillAndStroke winding =>
    .ok (s.draw (.fillStroke
      ⟨s.graphics_state.fill_color, s.graphics_state.fill_color_alpha, s.blend_mode_fill⟩
      ⟨s.graphics_state.stroke_color, s.graphics_state.stroke_color_alpha, s.blend_mode_stroke⟩
      s.graphics_state.stroke) winding.cvt)
  | .fill winding =>
    .ok (s.draw (.fill ⟨s.graphics_state.fill_color, s.graphics_state.fill_color_alpha,
      s.blend_mode_fill⟩) winding.cvt)
  | .save => .ok { s with stack := (s.graphics_state, s.text_state) :: s.stack }
  | .restore =>
    match s.stack with
    | [] => .error (.other "graphcs stack is empty")
    | (g, t) :: rest => .ok { s with graphics_state := g, text_state := t, stack := rest }
  | .transform matrix =>
    .ok { s with graphics_state := { s.graphics_state with
      transform := s.graphics_state.transform * matrix.cvt } }
  | .lineWidth width =>
    .ok { s with graphics_state := { s.graphics_state with
      stroke_style := { s.graphics_state.stroke_style with line_width := width } } }
  | .dash pattern phase =>
    .ok { s with graphics_state := { s.graphics_state with
      dash_pattern := some (pattern, phase) } }
  | .lineJoin => .ok s
  | .lineCap => .ok s
  | .miterLimit => .ok s
  | .flatness => .ok s
  | .strokeColor color =>
    match convert_color s.graphics_state.stroke_color_space color ctx.resources
        ctx.allow_error_in_option s.blend_mode_stroke with
    | .ok (cs, c) =>
      .ok { s with graphics_state :=
        ({ s.graphics_state with stroke_color_space := cs }).set_stroke_color c }
    | .error e => .error e
  | .fillColor color =>
    match convert_color s.graphics_state.fill_color_space color ctx.resources
        ctx.allow_error_in_option s.blend_mode_fill with
    | .ok (cs, c) =>
      .ok { s with graphics_state :=
        ({ s.graphics_state with fill_color_space := cs }).set_fill_color c }
    | .error e => .error e
  | .fillColorSpace name =>
    match lookup_color_space name ctx.resources with
    | .ok cs =>
      .ok { s with graphics_state :=
        ({ s.graphics_state with fill_color_space := cs }).set_fill_color Fill.black }
    | .error e => .error e
  | .strokeColorSpace name =>
    match lookup_color_space name ctx.resources with
    | .ok cs =>
      .ok { s with graphics_state :=
        ({ s.graphics_state with stroke_color_space := cs }).set_stroke_color Fill.black }
    | .error e => .error e
  | .renderingIntent => .ok s
  | .beginText => .ok { s with text_state := s.text_state.reset_matrix }
  | .endText => .ok s
  | .charSpacing char_space => .ok { s with text_state := { s.text_state with char_space } }
  | .wordSpacing word_space => .ok { s with text_state := { s.text_state with word_space } }
  | .textScaling horiz_scale =>
    .ok { s with text_state := { s.text_state with horiz_scale := (1 / 100) * horiz_scale } }
  | .leading leading => .ok { s with text_state := { s.text_state with leading } }
  | .textRenderMode mode => .ok { s with text_state := { s.text_state with mode } }
  | .textRise rise => .ok { s with text_state := { s.text_state with rise } }
  | .moveTextPosition translation =>
    .ok { s with text_state := s.text_state.translate translation.cvt }
  | .setTextMatrix matrix => .ok { s with text_state := s.text_state.set_matrix matrix.cvt }
  | .textNewline => .ok { s with text_state := s.text_state.next_line }

/-- The render loop (`render_page`, `lib.rs` lines 146-149): execute
operators in order, aborting on the first error. -/
def exec (ctx : Ctx) : List Op → RState → Except PdfErr RState
  | [], s => .ok s
  | op :: ops, s =>
    match draw_op ctx s op with
    | .ok s1 => exec ctx ops s1
    | .error e => .error e

/-- Balanced operator sequences: saves and restores are properly nested, so
the sequence never pops an entry it did not push. -/
inductive Balanced : List Op → Prop where
  | nil : Balanced []
  | step (op : Op) (ops : List Op) : op ≠ .save → op ≠ .restore → Balanced ops →
      Balanced (op :: ops)
  | nest (inner rest : List Op) : Balanced inner → Balanced rest →
      Balanced (Op.save :: (inner ++ Op.restore :: rest))

/-- A trivial interpreter context. -/
def ctx0 : Ctx := ⟨emptyResources, false⟩

end PdfRender

namespace PdfRender.PaintCache

/-- The color/paint portion of `GraphicsState` from
`src/render/src/graphicsstate.rs` lines 15-31 (the pathfinder-scene
revision): fill/stroke `ColorF`, cached `PaintId`s (modelled as `Option Nat`)
and the fill/stroke alpha factors.  The fields these methods never touch
(transform, stroke style, clip path, color spaces) are omitted. -/
structure GraphicsState where
  fill_color : ColorF
  fill_paint : Option Nat
  stroke_color : ColorF
  stroke_paint : Option Nat
  fill_alpha : ℚ
  stroke_alpha : ℚ
  deriving DecidableEq, Repr

/-- `GraphicsState::set_fill_color` from `graphicsstate.rs` lines 41-48. -/
def GraphicsState.set_fill_color (s : GraphicsState) (rgb : ℚ × ℚ × ℚ) : GraphicsState :=
  let (r, g, b) := rgb
  if (r, g, b) ≠ (s.fill_color.r, s.fill_color.g, s.fill_color.b) then
    { s with fill_color := { s.fill_color with r := r, g := g, b := b }, fill_paint := none }
  else s

/-- `GraphicsState::set_stroke_color` from `graphicsstate.rs` lines 56-63.
Note the guard of line 57 compares the red component against
`self.fill_color.r()`, not `self.stroke_color.r()`. -/
def GraphicsState.set_stroke_color (s : GraphicsState) (rgb : ℚ × ℚ × ℚ) : GraphicsState :=
  let (r, g, b) := rgb
  if (r, g, b) ≠ (s.fill_color.r, s.stroke_color.g, s.stroke_color.b) then
    { s with stroke_color := { s.stroke_color with r := r, g := g, b := b }, stroke_paint := none }
  else s

/-- `GraphicsState::set_fill_alpha` from `graphicsstate.rs` lines 49-55. -/
def GraphicsState.set_fill_alpha (s : GraphicsState) (alpha : ℚ) : GraphicsState :=
  let a := s.fill_alpha * alpha
  if a ≠ s.fill_color.a then
    { s with fill_color := { s.fill_color with a := a }, fill_paint := none }
  else s

/-- `GraphicsState::set_stroke_alpha` from `graphicsstate.rs` lines 64-70. -/
def GraphicsState.set_stroke_alpha (s : GraphicsState) (alpha : ℚ) : GraphicsState :=
  let a := s.stroke_alpha * alpha
  if a ≠ s.stroke_color.a then
    { s with stroke_color := { s.stroke_color with a := a }, stroke_paint := none }
  else s

/-- The concrete graphics state exhibiting the `set_stroke_color` slip:
fill color red = 1, stroke color black, a cached stroke paint. -/
def bugState : GraphicsState :=
  { fill_color := ⟨1, 0, 0, 1⟩, fill_paint := some 3,
    stroke_color := ⟨0, 0, 0, 1⟩, stroke_paint := some 7,
    fill_alpha := 1, stroke_alpha := 1 }

end PdfRender.PaintCache

namespace PdfRender

/-- C4: in an Indexed color space with base DeviceRGB and the 6-byte lookup
table [255,0,0, 0,0,255], selecting index 1 takes its components from lookup
bytes [3·1 .. 3·1+3] = (0,0,255), but `convert_color2` converts each byte
with a bare `as f32` cast and no /255 normalization: the fill produced is
`Solid(0, 0, 255)`, not the `Solid(0, 0, 1)` the spec requires of unit-range
`Fill::Solid` components (compare `gray2rgb` and the DeviceRGB operand arm,
which keep components in [0,1]). -/
theorem indexed_rgb_missing_normalization :
    convert_color2 (ColorSpace.indexed .deviceRGB 1 [255, 0, 0, 0, 0, 255])
        (Color.other [Prim.int 1]) emptyResources .overlay =
      .ok (ColorSpace.indexed .deviceRGB 1 [255, 0, 0, 0, 0, 255], Fill.solid 0 0 255) ∧
    Fill.solid 0 0 (255 : ℚ) ≠ Fill.solid 0 0 1 := by
  constructor
  · rfl
  · simp only [Fill.solid.injEq, ne_eq, not_and]
    intro _ _
    norm_num

end PdfRender

namespace PdfRender

/-- C9: `cmyk2rgb(0,0,0,0, Darken) == (1,1,1)` and
`cmyk2rgb(0,0,0,1, Darken) == (0,0,0)` — the color CMYK identity of the spec,
evaluated on the operand-level `cmyk2rgb` of `renderstate.rs`. -/
theorem cmyk2rgb_identity :
    cmyk2rgb (0, 0, 0, 0) .darken = Fill.solid 1 1 1 ∧
    cmyk2rgb (0, 0, 0, 1) .darken = Fill.solid 0 0 0 := by
  constructor <;> simp [cmyk2rgb]

/-- C3 counterexample: the claim says the operand-level conversion uses the
inverted form for `Overlay`; on the operand (0,0,0,0) the inverted form
(spec's words) yields `Solid(0,0,0)`, but `cmyk2rgb` of `renderstate.rs`
yields `Solid(1,1,1)` — the `mode` parameter is ignored there. -/
theorem cmyk2rgb_overlay_not_inverted :
    cmyk2rgb (0, 0, 0, 0) .overlay = Fill.solid 1 1 1 ∧
    spec_cmyk2rgb (0, 0, 0, 0) .overlay = Fill.solid 0 0 0 ∧
    cmyk2rgb (0, 0, 0, 0) .overlay ≠ spec_cmyk2rgb (0, 0, 0, 0) .overlay := by
  refine ⟨by simp [cmyk2rgb], by norm_num [spec_cmyk2rgb], ?_⟩
  simp [cmyk2rgb, spec_cmyk2rgb]
  norm_num

/-- C3 amended: the operand-level `cmyk2rgb` of `renderstate.rs` applies the
Darken formula `(1−min(1,c+k), 1−min(1,m+k), 1−min(1,y+k))` for BOTH blend
modes (the mode argument is ignored); only the image decoder's byte-level
`cmyk2rgb` (`image.rs`) uses the inverted form for Overlay, where inversion
is byte complement. -/
theorem cmyk2rgb_mode_ignored :
    (∀ c m y k : ℚ, ∀ mode,
      cmyk2rgb (c, m, y, k) mode =
        Fill.solid (1 - min 1 (c + k)) (1 - min 1 (m + k)) (1 - min 1 (y + k))) ∧
    (∀ c m y k : Nat, ∀ mode, cmyk2rgb (c, m, y, k) mode = cmyk2rgb (c, m, y, k) .darken) ∧
    (∀ c m y k : Nat,
      cmyk2rgbBytes (c, m, y, k) .overlay =
        cmyk2rgbBytes (255 - c, 255 - m, 255 - y, 255 - k) .darken) := by
  refine ⟨fun c m y k mode => ?_, fun c m y k mode => rfl, fun c m y k => rfl⟩
  simp only [cmyk2rgb, Fill.solid.injEq]
  have h : ∀ x : ℚ, 1 - (if x > 1 then 1 else x) = 1 - min 1 x := by
    intro x
    rcases le_or_lt x 1 with h | h
    · rw [if_neg (not_lt.mpr h), min_eq_right h]
    · rw [if_pos h, min_eq_left h.le]
  exact ⟨h _, h _, h _⟩

/-- C2 counterexample: with `char_space = 1`, `word_space = 0`,
`horiz_scale = 1` and width 0 for the space character, the claim's advance
`(char_space + word_space) × horiz_scale + width` is 1, but the space branch
of `draw_text` (textstate.rs line 139) computes
`word_space × horiz_scale + width` = 0: after showing a single space the
span width is 0, not 1. -/
theorem space_advance_drops_char_space :
    (tsSpace.draw_text gsInit [32] Span.default).2.1.width = 0 ∧
    (tsSpace.char_space + tsSpace.word_space) * tsSpace.horiz_scale + 0 = 1 ∧
    (0 : ℚ) ≠ 1 := by
  refine ⟨?_, ?_, by norm_num⟩
  · simp [TextState.draw_text, tsSpace, spaceFont, TextState.new, drawTextStep, lookupGlyph,
      glyphWidth, Span.default]
  · norm_num [tsSpace, TextState.new]

/-- C2 amended: on a non-CID font (Cmap encoding), a decoded character whose
Unicode fragment is `" "` advances the text matrix and the span width by
`word_space × horiz_scale + width` (char_space is NOT added), pushes a space
into the span text, and neither calls `draw_glyph` (events unchanged) nor
records a `TextChar` (chars unchanged). -/
theorem draw_text_space_branch (e : FontEntry) (gs : GraphicsState) (tr : Transform2F)
    (dm : Option TextDrawMode) (cs ws h fs : ℚ) (acc : DTAcc) (cid : Nat)
    (gidOpt : Option Nat) (m : Nat → Option (Nat × Option String))
    (henc : e.encoding = .cmap m) :
    drawTextStep e gs tr dm cs ws h fs acc (cid, gidOpt, some " ") =
      { acc with
        text_matrix := acc.text_matrix * Transform2F.from_translation
          (ws * h + glyphWidth e tr h fs cid (gidOpt.getD 0), 0),
        span := { acc.span with
          width := acc.span.width + (ws * h + glyphWidth e tr h fs cid (gidOpt.getD 0)),
          text := acc.span.text.push ' ' } } := by
  simp [drawTextStep, henc]

/-- C2 witness: the space branch evaluated on `spaceFont` at code 32. -/
theorem draw_text_space_branch_witness :
    drawTextStep spaceFont gsInit .id none 1 0 1 1 ⟨.id, Span.default, []⟩
        (32, some 1, some " ") =
      { (⟨.id, Span.default, []⟩ : DTAcc) with
        text_matrix := Transform2F.id * Transform2F.from_translation
          (0 * 1 + glyphWidth spaceFont .id 1 1 32 ((some 1).getD 0), 0),
        span := { Span.default with
          width := Span.default.width + (0 * 1 + glyphWidth spaceFont .id 1 1 32 ((some 1).getD 0)),
          text := Span.default.text.push ' ' } } :=
  draw_text_space_branch spaceFont gsInit .id none 1 0 1 1 ⟨.id, Span.default, []⟩ 32 (some 1)
    (fun cid => if cid = 32 then some (1, some " ") else none) rfl

/-- C5 counterexample: showing `"A"` through `fontA` (scaled width 2) with
`char_space = 1` yields a span of total width 3, while the `chars` array
records only the bare width 2 and there are no trailing space advances
(no spaces at all): `span.width ≠ Σ chars[i].width + trailing_space_advances`
because per-glyph `char_space` is part of the advance but not of
`chars[i].width`. -/
theorem span_width_vs_char_widths :
    (tsA.draw_text gsInit [65] Span.default).2.1.width = 3 ∧
    ((tsA.draw_text gsInit [65] Span.default).2.1.chars.map TextChar.width).sum = 2 ∧
    (3 : ℚ) ≠ 2 + 0 := by
  refine ⟨?_, ?_, by norm_num⟩
  · simp [TextState.draw_text, tsA, fontA, TextState.new, drawTextStep, lookupGlyph,
      glyphWidth, Span.default]
    norm_num
  · simp [TextState.draw_text, tsA, fontA, TextState.new, drawTextStep, lookupGlyph,
      glyphWidth, Span.default]
    norm_num

/-- The span width grows by exactly the glyph's effective advance at each
loop iteration (`word_space·horiz_scale + width` in the space branch,
`char_space·horiz_scale + width` otherwise). -/
theorem drawTextStep_width (e : FontEntry) (gs : GraphicsState) (tr : Transform2F)
    (dm : Option TextDrawMode) (cs ws h fs : ℚ) (acc : DTAcc) (rec : GlyphRec) :
    (drawTextStep e gs tr dm cs ws h fs acc rec).span.width =
      acc.span.width + advanceOf e tr cs ws h fs rec := by
  obtain ⟨cid, gidOpt, uni⟩ := rec
  simp only [drawTextStep, advanceOf]
  split
  · rfl
  · cases hgl : e.font.glyph (gidOpt.getD 0) <;> cases uni <;>
      simp only [hgl] <;> (try split) <;> (try cases dm) <;> rfl

/-- Folding the glyph loop sums the advances. -/
theorem foldl_drawTextStep_width (e : FontEntry) (gs : GraphicsState) (tr : Transform2F)
    (dm : Option TextDrawMode) (cs ws h fs : ℚ) (gl : List GlyphRec) :
    ∀ acc : DTAcc, (gl.foldl (drawTextStep e gs tr dm cs ws h fs) acc).span.width =
      acc.span.width + (gl.map (advanceOf e tr cs ws h fs)).sum := by
  induction gl with
  | nil => intro acc; simp
  | cons gh gt ih =>
    intro acc
    simp only [List.foldl_cons, List.map_cons, List.sum_cons, ih, drawTextStep_width]
    ring

/-- C5 amended: the total span width produced by a text-showing operator is
the span's initial width plus the sum of the per-glyph effective advances
over ALL decoded characters — including spaces anywhere in the run and
glyphs without a Unicode mapping, and including the `char_space` term that
is absent from `chars[i].width` (which records only the bare glyph width). -/
theorem draw_text_width_is_advance_sum (ts : TextState) (gs : GraphicsState)
    (data : List Nat) (span : Span) (e : FontEntry) (hfe : ts.font_entry = some e) :
    (ts.draw_text gs data span).2.1.width =
      span.width +
        (((if e.is_cid then decodeBE2 data else data).map (lookupGlyph e.encoding)).map
          (advanceOf e
            (Transform2F.row_major (ts.horiz_scale * ts.font_size) 0 0 0 ts.font_size ts.rise *
              e.font.font_matrix)
            ts.char_space ts.word_space ts.horiz_scale ts.font_size)).sum := by
  unfold TextState.draw_text
  rw [hfe]
  exact foldl_drawTextStep_width e gs _ _ ts.char_space ts.word_space ts.horiz_scale
    ts.font_size _ ⟨ts.text_matrix, span, []⟩

/-- C5 witness: the advance sum evaluated on `fontA` showing `"A"`. -/
theorem draw_text_width_is_advance_sum_witness :
    (tsA.draw_text gsInit [65] Span.default).2.1.width =
      Span.default.width +
        (((if fontA.is_cid then decodeBE2 [65] else [65]).map (lookupGlyph fontA.encoding)).map
          (advanceOf fontA
            (Transform2F.row_major (tsA.horiz_scale * tsA.font_size) 0 0 0 tsA.font_size tsA.rise *
              fontA.font.font_matrix)
            tsA.char_space tsA.word_space tsA.horiz_scale tsA.font_size)).sum :=
  draw_text_width_is_advance_sum tsA gsInit [65] Span.default fontA rfl

/-- `chunks_exact(2)` drops a trailing odd byte: appending one byte to an
even-length byte string decodes to the same codepoints. -/
theorem decodeBE2_append_even (b : Nat) : ∀ (data : List Nat), data.length % 2 = 0 →
    decodeBE2 (data ++ [b]) = decodeBE2 data
  | [] => fun _ => rfl
  | [_] => fun h => absurd h (by simp)
  | a :: a2 :: t => fun h => by
    have ht : t.length % 2 = 0 := by
      simp only [List.length_cons] at h
      omega
    simp only [List.cons_append, decodeBE2]
    exact congrArg (List.cons (a * 256 + a2)) (decodeBE2_append_even b t ht)

/-- C10: for a CID-keyed font, character ids come from consecutive 2-byte
big-endian chunks; a trailing odd byte is silently ignored — appending it
changes nothing: no glyph, no advance, no error. -/
theorem draw_text_cid_ignores_trailing_byte (ts : TextState) (gs : GraphicsState)
    (span : Span) (e : FontEntry) (data : List Nat) (b : Nat)
    (hfe : ts.font_entry = some e) (hcid : e.is_cid = true)
    (hlen : data.length % 2 = 0) :
    ts.draw_text gs (data ++ [b]) span = ts.draw_text gs data span := by
  unfold TextState.draw_text
  rw [hfe]
  simp only [hcid, if_true, decodeBE2_append_even b data hlen]

/-- C10 witness: the CID font shows `[0, 65]` with and without a trailing
byte 7 identically. -/
theorem draw_text_cid_ignores_trailing_byte_witness :
    tsCid.draw_text gsInit ([0, 65] ++ [7]) Span.default =
      tsCid.draw_text gsInit [0, 65] Span.default :=
  draw_text_cid_ignores_trailing_byte tsCid gsInit Span.default cidFont [0, 65] 7 rfl rfl
    (by decide)

/-- `flush` does not touch the save stack. -/
theorem flush_stack (s : RState) : s.flush.stack = s.stack := by
  unfold RState.flush
  split <;> rfl

/-- No operator other than Save and Restore modifies the save stack. -/
theorem draw_op_preserves_stack (ctx : Ctx) (s s' : RState) (op : Op)
    (hsave : op ≠ .save) (hrestore : op ≠ .restore)
    (h : draw_op ctx s op = .ok s') : s'.stack = s.stack := by
  cases op
  case save => exact absurd rfl hsave
  case restore => exact absurd rfl hrestore
  all_goals
    simp only [draw_op] at h
    repeat' split at h
    all_goals
      first
      | exact Except.noConfusion h
      | (injection h with h2
         subst h2
         first
         | rfl
         | exact flush_stack s)

/-- Executing a concatenation runs the pieces in order. -/
theorem exec_append (ctx : Ctx) (xs ys : List Op) (s : RState) :
    exec ctx (xs ++ ys) s =
      match exec ctx xs s with
      | .ok s1 => exec ctx ys s1
      | .error e => .error e := by
  induction xs generalizing s with
  | nil => simp [exec]
  | cons op ops ih =>
    simp only [List.cons_append, exec]
    cases draw_op ctx s op <;> simp [ih]

/-- A balanced operator sequence leaves the save stack exactly as it found
it: inner Saves are matched by inner Restores, and no other operator
touches the stack. -/
theorem exec_balanced_stack (ctx : Ctx) (ops : List Op) (hb : Balanced ops) :
    ∀ s s' : RState, exec ctx ops s = .ok s' → s'.stack = s.stack := by
  induction hb with
  | nil =>
    intro s s' h
    simp only [exec, Except.ok.injEq] at h
    subst h
    rfl
  | step op ops hs hr _ ih =>
    intro s s' h
    simp only [exec] at h
    cases hd : draw_op ctx s op with
    | error e => rw [hd] at h; exact Except.noConfusion h
    | ok s1 =>
      rw [hd] at h
      rw [ih s1 s' h, draw_op_preserves_stack ctx s s1 op hs hr hd]
  | nest inner rest _ _ ihi ihr =>
    intro s s' h
    simp only [exec, draw_op] at h
    rw [exec_append] at h
    cases he : exec ctx inner
        { s with stack := (s.graphics_state, s.text_state) :: s.stack } with
    | error e => rw [he] at h; exact Except.noConfusion h
    | ok s2 =>
      rw [he] at h
      have h2 : s2.stack = (s.graphics_state, s.text_state) :: s.stack := ihi _ _ he
      simp only [exec, draw_op, h2] at h
      rw [ihr _ _ h]

/-- C1: a Save, a balanced operator sequence, then a Restore put the
graphics state and the text state back to their pre-Save values (and leave
the save stack unchanged): Save pushes a clone of the pair
(`renderstate.rs` line 237), the balanced body returns the stack to the
same entry untouched, and Restore pops exactly that clone (lines 239-243). -/
theorem save_restore_roundtrip (ctx : Ctx) (ops : List Op) (s s' : RState)
    (hb : Balanced ops)
    (hex : exec ctx (Op.save :: (ops ++ [Op.restore])) s = .ok s') :
    s'.graphics_state = s.graphics_state ∧ s'.text_state = s.text_state ∧
      s'.stack = s.stack := by
  simp only [exec, draw_op] at hex
  rw [exec_append] at hex
  cases he : exec ctx ops
      { s with stack := (s.graphics_state, s.text_state) :: s.stack } with
  | error e => rw [he] at hex; exact Except.noConfusion hex
  | ok s2 =>
    rw [he] at hex
    have hst : s2.stack = (s.graphics_state, s.text_state) :: s.stack :=
      exec_balanced_stack ctx ops hb _ s2 he
    simp only [exec, draw_op, hst, Except.ok.injEq] at hex
    subst hex
    exact ⟨rfl, rfl, rfl⟩

/-- The `q 10 0 0 10 0 0 cm Q` scale matrix of the spec's balance scenario. -/
def mW : Matrix := ⟨10, 0, 0, 10, 0, 0⟩

/-- C1 witness: `q`, a 10× scale `cm`, `Q` from the initial state restores
the initial state exactly. -/
theorem save_restore_roundtrip_witness :
    Balanced [Op.transform mW] ∧
    exec ctx0 (Op.save :: ([Op.transform mW] ++ [Op.restore])) (RState.new .id) =
      .ok (RState.new .id) ∧
    ((RState.new Transform2F.id).graphics_state = (RState.new Transform2F.id).graphics_state ∧
     (RState.new Transform2F.id).text_state = (RState.new Transform2F.id).text_state ∧
     (RState.new Transform2F.id).stack = (RState.new Transform2F.id).stack) :=
  have hb : Balanced [Op.transform mW] :=
    Balanced.step _ _ (by simp) (by simp) Balanced.nil
  have hexec : exec ctx0 (Op.save :: ([Op.transform mW] ++ [Op.restore])) (RState.new .id) =
      .ok (RState.new .id) := rfl
  ⟨hb, hexec, save_restore_roundtrip ctx0 [Op.transform mW] (RState.new .id) (RState.new .id)
    hb hexec⟩

/-- C6 counterexample: Restore on an empty save stack fails with
`PdfError::Other { msg: "graphcs stack is empty" }` (`renderstate.rs`
line 240) — not with the distinct `GraphicsStackUnderflow` kind the spec
names. -/
theorem restore_on_empty_is_other_error :
    draw_op ctx0 (RState.new .id) Op.restore =
      .error (.other "graphcs stack is empty") ∧
    PdfErr.other "graphcs stack is empty" ≠ PdfErr.graphicsStackUnderflow :=
  ⟨rfl, by simp⟩

/-- C6 amended: executing Restore with an empty save stack fails with the
recoverable error `PdfError::Other("graphcs stack is empty")` and modifies
nothing — `draw_op` returns the error before any assignment to the
interpreter state. -/
theorem restore_on_empty_stack (ctx : Ctx) (s : RState) (h : s.stack = []) :
    draw_op ctx s Op.restore = .error (.other "graphcs stack is empty") := by
  simp only [draw_op, h]

/-- C6 witness: the empty-stack Restore error on the initial state. -/
theorem restore_on_empty_stack_witness :
    draw_op ctx0 (RState.new Transform2F.id) Op.restore =
      .error (.other "graphcs stack is empty") :=
  restore_on_empty_stack ctx0 (RState.new Transform2F.id) rfl

/-- C7 counterexample: an image whose raw (post-filter) byte length (3) is
NOT a multiple of the pixel count (5×1 = 5) does not fail at all: `load_image`
only logs a warning and decodes successfully with the floored data/pixel
ratio 3·8/5 = 4. -/
theorem load_image_ok_on_non_multiple_length :
    (3 : Nat) % 5 ≠ 0 ∧
    load_image 5 1 [0, 0, 0] (some .deviceGray) emptyResources .overlay =
      .ok ⟨[⟨0, 0, 0, 255⟩, ⟨0, 0, 0, 255⟩, ⟨0, 0, 0, 255⟩, ⟨0, 0, 0, 255⟩,
            ⟨0, 0, 0, 255⟩], 5, 1⟩ := by
  constructor
  · decide
  · rfl

/-- C7 amended: a raw length that is not a multiple of the pixel count is
only warned about and decoding proceeds with the floored data/pixel ratio; a
data/pixel ratio outside {1,2,4,8,24,32} fails with the recoverable error
`PdfError::Other("Unimplemented: data/pixel ratio N")` (there is no
`InvalidImageData` variant), which the backend ignores for that image alone
(`vello_backend.rs` line 247). -/
theorem load_image_bad_ratio (width height : Nat) (raw : List Nat)
    (cs : Option ColorSpace) (resources : Resources) (mode : BlendMode)
    (hr : ¬(raw.length * 8 / (width * height) = 1 ∨
            raw.length * 8 / (width * height) = 2 ∨
            raw.length * 8 / (width * height) = 4 ∨
            raw.length * 8 / (width * height) = 8 ∨
            raw.length * 8 / (width * height) = 24 ∨
            raw.length * 8 / (width * height) = 32)) :
    load_image width height raw cs resources mode =
      .error (.other ("Unimplemented: data/pixel ratio " ++
        toString (raw.length * 8 / (width * height)))) := by
  have key : ∀ pc n (csR : Option ColorSpace),
      ¬(n = 1 ∨ n = 2 ∨ n = 4 ∨ n = 8 ∨ n = 24 ∨ n = 32) →
      decode_ratio pc n raw csR resources mode =
        .error (.other ("Unimplemented: data/pixel ratio " ++ toString n)) := by
    intro pc n csR hn
    push_neg at hn
    obtain ⟨g1, g2, g4, g8, g24, g32⟩ := hn
    unfold decode_ratio
    split
    · exact absurd rfl g1
    · exact absurd rfl g2
    · exact absurd rfl g4
    · exact absurd rfl g8
    · exact absurd rfl g24
    · exact absurd rfl g32
    · rfl
  unfold load_image
  rw [key _ _ _ hr]
  rfl

/-- C7 witness: 2 raw bytes for a 1×1 image give data/pixel ratio 16, which
is outside {1,2,4,8,24,32}; `load_image` returns the `Unimplemented` error. -/
theorem load_image_bad_ratio_witness :
    load_image 1 1 [0, 0] none emptyResources .overlay =
      .error (.other ("Unimplemented: data/pixel ratio " ++
        toString ((0 :: 0 :: List.nil).length * 8 / (1 * 1)))) :=
  load_image_bad_ratio 1 1 [0, 0] none emptyResources .overlay (by decide)

end PdfRender

namespace PdfRender.PaintCache

/-- C8: `set_stroke_color((1,0,0))` on a state whose stroke color is (0,0,0)
— a triple different from the current stroke color — must update the stroke
color and clear the cached stroke paint; but the guard compares the red
component against `fill_color.r()` (= 1), so the call is a no-op: the stroke
color stays (0,0,0) and the cached paint survives.  The symmetric
`set_fill_color` behaves as claimed (second conjunct). -/
theorem set_stroke_color_reads_fill_red :
    ((1 : ℚ), (0 : ℚ), (0 : ℚ)) ≠
        (bugState.stroke_color.r, bugState.stroke_color.g, bugState.stroke_color.b) ∧
    bugState.set_stroke_color (1, 0, 0) = bugState ∧
    (bugState.set_fill_color (0, 1, 0) =
      { bugState with fill_color := ⟨0, 1, 0, 1⟩, fill_paint := none }) := by
  refine ⟨by decide, by decide, by decide⟩

end PdfRender.PaintCache
